import Mathlib

/-!
Verification of the authentication token lifecycle of the boilerplate
backend (`src/server.ts`, hardened `AuthService` variant, with the OAuth
variant of `refreshToken` modelled separately where a claim cites it).

Shallow embedding conventions:
* A JWT is modelled symbolically as its claim set together with the secret
  it was signed with and its absolute expiry time; `jwtVerify` succeeds
  exactly when the secret matches and the token is not expired, mirroring
  the signature and `exp` checks of `jsonwebtoken`.
* The Redis session store is an association list from structured keys
  (`refresh_token:{userId}:{tokenId}` and `token:{refreshTokenValue}`) to
  the stored JSON metadata `{userId, tokenId, createdAt}`.  `SET` replaces,
  `DEL` removes, `KEYS refresh_token:{userId}:*` enumerates the session
  keys of a user.  Store-side TTL expiry is not needed by any claim and is
  not modelled.
* `crypto.randomUUID()` is modelled by a monotone counter threaded through
  the operations: each token issuance consumes the current counter value
  as its `tokenId` (`jti`) and increments the counter, capturing the
  freshness (collision resistance) of the generator.
* `bcrypt` hashing is modelled by an injective tagging function, capturing
  that `bcrypt.compare(pw, hash)` succeeds exactly on the hashed password.
* The Express response cookie channel is modelled by a `CookieEffect`
  recording whether a call left the `refreshToken` cookie untouched,
  cleared it, or set it to a token.
-/

namespace BoilerplateAuth

abbrev UserId := String

abbrev TokenId := Nat

/-- Default access-token signing secret (`JWT_SECRET` in `server.ts`). -/
def JWT_SECRET : String := "your-secret-key"

/-- Default refresh-token signing secret (`REFRESH_SECRET` in `server.ts`). -/
def REFRESH_SECRET : String := "your-refresh-secret"

/-- `ACCESS_TOKEN_EXPIRY = "15m"` of the hardened variant, in seconds. -/
def ACCESS_TOKEN_EXPIRY : Nat := 15 * 60

/-- `REFRESH_TOKEN_EXPIRY = 7 * 24 * 60 * 60` (7 days), in seconds. -/
def REFRESH_TOKEN_EXPIRY : Nat := 7 * 24 * 60 * 60

/-- `ACCESS_TOKEN_EXPIRY = "24h"` of the OAuth variant, in seconds. -/
def ACCESS_TOKEN_EXPIRY_V3 : Nat := 24 * 60 * 60

/-- Claim set of an access token: `{email, sub, role, jti}`. -/
structure AccessClaims where
  email : String
  sub : UserId
  role : String
  jti : TokenId
deriving DecidableEq, Repr

/-- Claim set of a refresh token: `{sub, jti}`. -/
structure RefreshClaims where
  sub : UserId
  jti : TokenId
deriving DecidableEq, Repr

/-- A signed JWT, modelled symbolically: payload, signing secret, absolute
expiry instant (seconds). -/
structure SignedToken (α : Type) where
  payload : α
  secret : String
  exp : Nat
deriving DecidableEq, Repr

/-- `jwt.sign(payload, secret, {expiresIn})` at time `now`. -/
def jwtSign {α : Type} (payload : α) (secret : String) (now expiresIn : Nat) :
    SignedToken α :=
  ⟨payload, secret, now + expiresIn⟩

/-- `jwt.verify(token, secret)` at time `now`: the payload when the signing
secret matches and the token has not expired, otherwise a verification
failure (modelled as `none`). -/
def jwtVerify {α : Type} (t : SignedToken α) (secret : String) (now : Nat) :
    Option α :=
  if t.secret = secret ∧ now < t.exp then some t.payload else none

/-- A stored user row (Prisma `User`), including the bcrypt password hash. -/
structure User where
  id : UserId
  email : String
  name : Option String
  role : String
  password : String
deriving DecidableEq, Repr

/-- `SafeUser = Omit<User, "password">`. -/
structure SafeUser where
  id : UserId
  email : String
  name : Option String
  role : String
deriving DecidableEq, Repr

/-- `const { password: _, ...safeUser } = user`. -/
def stripPassword (u : User) : SafeUser :=
  ⟨u.id, u.email, u.name, u.role⟩

/-- Symbolic bcrypt hash: an injective tagging of the password (collision
resistance of the hash is what the code relies on). -/
def bcryptHashString (pw : String) : String :=
  "bcrypt2b12" ++ pw

/-- `bcrypt.compare(pw, hash)`: succeeds exactly when `hash` is the hash of
`pw`. -/
def bcryptCompare (pw hash : String) : Bool :=
  hash = bcryptHashString pw

/-- The relational store, as the list of user rows. -/
abbrev Db := List User

/-- `prisma.user.findUnique({where: {email}})`. -/
def findUserByEmail (db : Db) (email : String) : Option User :=
  db.find? (fun u => u.email = email)

/-- `prisma.user.findUnique({where: {id}})`. -/
def findUserById (db : Db) (id : UserId) : Option User :=
  db.find? (fun u => u.id = id)

/-- The JSON metadata stored for a session:
`{userId, tokenId, createdAt}`. -/
structure TokenData where
  userId : UserId
  tokenId : TokenId
  createdAt : Nat
deriving DecidableEq, Repr

/-- A Redis key of the session store: `refresh_token:{userId}:{tokenId}`
(`session`) or `token:{refreshTokenValue}` (`tokenVal`). -/
inductive RKey where
  | session (userId : UserId) (tokenId : TokenId)
  | tokenVal (t : SignedToken RefreshClaims)
deriving DecidableEq, Repr

/-- The Redis session store, as an association list. -/
abbrev Store := List (RKey × TokenData)

/-- `GET key`. -/
def redisGet : Store → RKey → Option TokenData
  | [], _ => none
  | (k', v) :: rest, k => if k' = k then some v else redisGet rest k

/-- `DEL key` (removes every binding of the key). -/
def redisDel : Store → RKey → Store
  | [], _ => []
  | (k', v) :: rest, k =>
      if k' = k then redisDel rest k else (k', v) :: redisDel rest k

/-- `SET key value` (replaces any previous binding). -/
def redisSet (st : Store) (k : RKey) (v : TokenData) : Store :=
  (k, v) :: redisDel st k

/-- `KEYS refresh_token:{userId}:*`: the session keys of a user. -/
def sessionKeysOf : Store → UserId → List RKey
  | [], _ => []
  | (k, _) :: rest, uid =>
      match k with
      | .session u t =>
          if u = uid then .session u t :: sessionKeysOf rest uid
          else sessionKeysOf rest uid
      | .tokenVal _ => sessionKeysOf rest uid

/-- `DEL k1 k2 ...` on a list of keys. -/
def redisDelAll (st : Store) (ks : List RKey) : Store :=
  ks.foldl redisDel st

/-- Effect of a call on the `refreshToken` HTTP-only cookie. -/
inductive CookieEffect where
  | untouched
  | cleared
  | set (t : SignedToken RefreshClaims)
deriving DecidableEq, Repr

/-- The errors the auth layer throws (both carried as `GraphQLError` with
code `UNAUTHORIZED` in the source): `"Invalid refresh token"` and
`"User not found"`. -/
inductive AuthErr where
  | invalidToken
  | userNotFound
deriving DecidableEq, Repr

/-- The pair returned by `generateTokens` together with the minted
`tokenId`. -/
structure TokenTriple where
  accessToken : SignedToken AccessClaims
  refreshToken : SignedToken RefreshClaims
  tokenId : TokenId
deriving DecidableEq, Repr

/-- The successful `refreshToken` return value of the hardened variant
`{access_token, refreshToken, user}`. -/
structure RefreshResult where
  access_token : SignedToken AccessClaims
  refreshToken : SignedToken RefreshClaims
  user : SafeUser
deriving DecidableEq, Repr

/-- The successful `refreshToken` return value of the OAuth variant; its
`const { ...safeUser } = user` keeps every field, so the user is a full
`User` row. -/
structure RefreshResultV3 where
  access_token : SignedToken AccessClaims
  refreshToken : SignedToken RefreshClaims
  user : User
deriving DecidableEq, Repr

namespace AuthService

/-- `AuthService.validateUser` (hardened variant): look up by email, compare
the bcrypt hash, strip the password; unknown email and wrong password both
return `null`. -/
def validateUser (db : Db) (email pw : String) : Option SafeUser :=
  match findUserByEmail db email with
  | none => none
  | some user =>
      if bcryptCompare pw user.password then some (stripPassword user)
      else none

/-- `AuthService.generateTokens` (hardened variant): mint a fresh `tokenId`
(here the counter value `gen`, modelling `crypto.randomUUID()`), sign the
access token `{email, sub, role, jti}` with `JWT_SECRET` for 15 minutes and
the refresh token `{sub, jti}` with `REFRESH_SECRET` for 7 days.  Returns
the triple and the advanced counter. -/
def generateTokens (user : SafeUser) (now gen : Nat) : TokenTriple × Nat :=
  let tokenId : TokenId := gen
  let accessToken :=
    jwtSign (α := AccessClaims) ⟨user.email, user.id, user.role, tokenId⟩
      JWT_SECRET now ACCESS_TOKEN_EXPIRY
  let refreshToken :=
    jwtSign (α := RefreshClaims) ⟨user.id, tokenId⟩
      REFRESH_SECRET now REFRESH_TOKEN_EXPIRY
  (⟨accessToken, refreshToken, tokenId⟩, gen + 1)

/-- `AuthService.storeRefreshToken`: write the metadata under
`refresh_token:{userId}:{tokenId}` and then under
`token:{refreshTokenValue}`. -/
def storeRefreshToken (st : Store) (userId : UserId)
    (refreshToken : SignedToken RefreshClaims) (tokenId : TokenId)
    (now : Nat) : Store :=
  let tokenData : TokenData := ⟨userId, tokenId, now⟩
  redisSet (redisSet st (.session userId tokenId) tokenData)
    (.tokenVal refreshToken) tokenData

/-- `AuthService.login` (hardened variant): generate tokens, store the
refresh token, set the cookie, return `{token, refreshToken, user}`. -/
def login (user : SafeUser) (st : Store) (gen now : Nat) :
    (SignedToken AccessClaims × SignedToken RefreshClaims × SafeUser) ×
      Store × Nat × CookieEffect :=
  let (tt, gen') := generateTokens user now gen
  let st' := storeRefreshToken st user.id tt.refreshToken tt.tokenId now
  ((tt.accessToken, tt.refreshToken, user), st', gen', .set tt.refreshToken)

/-- The throw-or-pass part of the hardened `refreshToken` (every throw in
the source happens before the first Redis write): verify the signature and
expiry, look the token value up in the store, check the stored `userId`
against the `sub` of the token, load the user row. -/
def refreshReadPhase (db : Db) (st : Store) (now : Nat)
    (refreshToken : SignedToken RefreshClaims) :
    Except AuthErr (RefreshClaims × TokenData × User) :=
  match jwtVerify refreshToken REFRESH_SECRET now with
  | none => .error .invalidToken
  | some decoded =>
      match redisGet st (.tokenVal refreshToken) with
      | none => .error .invalidToken
      | some tokenData =>
          if tokenData.userId ≠ decoded.sub then .error .invalidToken
          else
            match findUserById db decoded.sub with
            | none => .error .userNotFound
            | some user => .ok (decoded, tokenData, user)

/-- The Redis-write part of the hardened `refreshToken`: strip the
password, generate the new triple, `DEL token:{old}`, `DEL
refresh_token:{userId}:{oldTokenId}`, store the new refresh token, set the
cookie to the new refresh token. -/
def refreshWritePhase (st : Store) (gen now : Nat)
    (oldToken : SignedToken RefreshClaims) (decoded : RefreshClaims)
    (user : User) : RefreshResult × Store × Nat × CookieEffect :=
  let safeUser := stripPassword user
  let tt := (generateTokens safeUser now gen).1
  let gen' := (generateTokens safeUser now gen).2
  let st1 := redisDel st (.tokenVal oldToken)
  let st2 := redisDel st1 (.session decoded.sub decoded.jti)
  let st3 := storeRefreshToken st2 decoded.sub tt.refreshToken tt.tokenId now
  (⟨tt.accessToken, tt.refreshToken, safeUser⟩, st3, gen', .set tt.refreshToken)

/-- `AuthService.refreshToken` (hardened variant, `server.ts` lines
601–693): the read phase (all rejections) followed, on success only, by
the write phase (rotation). -/
def refreshToken (db : Db) (st : Store) (gen now : Nat)
    (rt : SignedToken RefreshClaims) :
    Except AuthErr RefreshResult × Store × Nat × CookieEffect :=
  match refreshReadPhase db st now rt with
  | .error e => (.error e, st, gen, .untouched)
  | .ok (decoded, _, user) =>
      let w := refreshWritePhase st gen now rt decoded user
      (.ok w.1, w.2.1, w.2.2.1, w.2.2.2)

/-- `AuthService.logout`: `KEYS refresh_token:{userId}:*`; delete them when
the list is non-empty; clear the cookie.  Never throws on an empty key
list. -/
def logout (st : Store) (userId : UserId) : Store × CookieEffect :=
  let keys := sessionKeysOf st userId
  let st' := if keys.isEmpty then st else redisDelAll st keys
  (st', .cleared)

/-- `AuthService.verifyToken`: verify an access token with `JWT_SECRET`,
returning the decoded payload or `null`. -/
def verifyToken (t : SignedToken AccessClaims) (now : Nat) :
    Option AccessClaims :=
  jwtVerify t JWT_SECRET now

/-- `generateTokens` of the OAuth variant: identical except for the 24-hour
access-token expiry; it is handed the un-stripped user object and reads
`email`, `id`, `role` from it. -/
def generateTokensV3 (user : User) (now gen : Nat) : TokenTriple × Nat :=
  let tokenId : TokenId := gen
  let accessToken :=
    jwtSign (α := AccessClaims) ⟨user.email, user.id, user.role, tokenId⟩
      JWT_SECRET now ACCESS_TOKEN_EXPIRY_V3
  let refreshToken :=
    jwtSign (α := RefreshClaims) ⟨user.id, tokenId⟩
      REFRESH_SECRET now REFRESH_TOKEN_EXPIRY
  (⟨accessToken, refreshToken, tokenId⟩, gen + 1)

/-- `AuthService.refreshToken` of the OAuth variant (`server.ts` lines
873–964): same flow, but `const { ...safeUser } = user` keeps every field
of the user row — including `password` — in the returned value. -/
def refreshTokenV3 (db : Db) (st : Store) (gen now : Nat)
    (rt : SignedToken RefreshClaims) :
    Except AuthErr RefreshResultV3 × Store × Nat × CookieEffect :=
  match refreshReadPhase db st now rt with
  | .error e => (.error e, st, gen, .untouched)
  | .ok (decoded, _, user) =>
      let safeUser := user
      let (tt, gen') := generateTokensV3 user now gen
      let st1 := redisDel st (.tokenVal rt)
      let st2 := redisDel st1 (.session decoded.sub decoded.jti)
      let st3 :=
        storeRefreshToken st2 decoded.sub tt.refreshToken tt.tokenId now
      (.ok ⟨tt.accessToken, tt.refreshToken, safeUser⟩, st3, gen',
        .set tt.refreshToken)

/-- The interleaved execution of two concurrent `refreshToken` calls
presenting the same token, under the schedule that the separate
get-then-delete leaves open: each Redis command is atomic, but both calls
complete their read phase on the shared store before either performs its
writes; the write phases then run in sequence.  Both reads are of the same
store, so they yield the same outcome. -/
def refreshTwoInterleaved (db : Db) (st : Store) (gen now : Nat)
    (rt : SignedToken RefreshClaims) :
    Except AuthErr RefreshResult × Except AuthErr RefreshResult × Store :=
  match refreshReadPhase db st now rt with
  | .error e => (.error e, .error e, st)
  | .ok (decoded, _, user) =>
      let (res₁, st₁, g₁, _) := refreshWritePhase st gen now rt decoded user
      let (res₂, st₂, _, _) := refreshWritePhase st₁ g₁ now rt decoded user
      (.ok res₁, .ok res₂, st₂)

end AuthService

/-! ### Store lemmas -/

theorem redisGet_redisDel_self (st : Store) (k : RKey) :
    redisGet (redisDel st k) k = none := by
  induction st with
  | nil => rfl
  | cons p rest ih =>
      obtain ⟨k', v⟩ := p
      by_cases h : k' = k
      · simp [redisDel, h, ih]
      · simp [redisDel, redisGet, h, ih]

theorem redisGet_redisDel_ne (st : Store) (k k' : RKey) (h : k' ≠ k) :
    redisGet (redisDel st k) k' = redisGet st k' := by
  induction st with
  | nil => rfl
  | cons p rest ih =>
      obtain ⟨k₀, v⟩ := p
      by_cases h0 : k₀ = k
      · subst h0
        simp [redisDel, redisGet, Ne.symm h, ih]
      · by_cases h1 : k₀ = k'
        · subst h1
          simp [redisDel, redisGet, h0]
        · simp [redisDel, redisGet, h0, h1, ih]

theorem redisGet_redisSet_self (st : Store) (k : RKey) (v : TokenData) :
    redisGet (redisSet st k v) k = some v := by
  simp [redisSet, redisGet]

theorem redisGet_redisSet_ne (st : Store) (k k' : RKey) (v : TokenData)
    (h : k' ≠ k) :
    redisGet (redisSet st k v) k' = redisGet st k' := by
  simp [redisSet, redisGet, Ne.symm h, redisGet_redisDel_ne st k k' h]

/-! ### Inversion lemmas for the refresh flow -/

theorem jwtVerify_some_inv {α : Type} (t : SignedToken α) (secret : String)
    (now : Nat) (d : α) (h : jwtVerify t secret now = some d) :
    t.secret = secret ∧ now < t.exp ∧ d = t.payload := by
  unfold jwtVerify at h
  split at h
  · next hc => exact ⟨hc.1, hc.2, (Option.some.injEq _ _ ▸ h).symm⟩
  · cases h

theorem refreshReadPhase_ok_inv (db : Db) (st : Store) (now : Nat)
    (rt : SignedToken RefreshClaims) (decoded : RefreshClaims)
    (td : TokenData) (user : User)
    (h : AuthService.refreshReadPhase db st now rt = .ok (decoded, td, user)) :
    decoded = rt.payload ∧ rt.secret = REFRESH_SECRET ∧ now < rt.exp ∧
    redisGet st (.tokenVal rt) = some td ∧ td.userId = rt.payload.sub ∧
    findUserById db rt.payload.sub = some user := by
  unfold AuthService.refreshReadPhase at h
  cases hv : jwtVerify rt REFRESH_SECRET now with
  | none => rw [hv] at h; cases h
  | some d =>
      obtain ⟨hs, hexp, hd⟩ := jwtVerify_some_inv rt REFRESH_SECRET now d hv
      subst hd
      cases hg : redisGet st (.tokenVal rt) with
      | none => simp [hv, hg] at h
      | some td' =>
          by_cases hid : td'.userId = rt.payload.sub
          · cases hu : findUserById db rt.payload.sub with
            | none => simp [hv, hg, hid, hu] at h
            | some user' =>
                simp [hv, hg, hid, hu] at h
                obtain ⟨hdec, htd, huser⟩ := h
                subst hdec
                subst htd
                subst huser
                exact ⟨rfl, hs, hexp, rfl, hid, rfl⟩
          · simp [hv, hg, hid] at h

theorem refreshToken_invalid_of_get_none (db : Db) (st : Store)
    (gen now : Nat) (rt : SignedToken RefreshClaims)
    (h : redisGet st (.tokenVal rt) = none) :
    (AuthService.refreshToken db st gen now rt).1 = .error .invalidToken := by
  unfold AuthService.refreshToken AuthService.refreshReadPhase
  cases hv : jwtVerify rt REFRESH_SECRET now with
  | none => simp
  | some d => simp [h]

theorem refreshToken_ok_shape (db : Db) (st : Store) (gen now : Nat)
    (rt : SignedToken RefreshClaims) (res : RefreshResult) (st' : Store)
    (gen' : Nat) (ck : CookieEffect)
    (h : AuthService.refreshToken db st gen now rt = (.ok res, st', gen', ck)) :
    ∃ user, findUserById db rt.payload.sub = some user ∧
      AuthService.refreshWritePhase st gen now rt rt.payload user
        = (res, st', gen', ck) := by
  unfold AuthService.refreshToken at h
  cases hr : AuthService.refreshReadPhase db st now rt with
  | error e => rw [hr] at h; simp at h
  | ok trip =>
      obtain ⟨decoded, td, user⟩ := trip
      obtain ⟨hdec, -, -, -, -, hu⟩ :=
        refreshReadPhase_ok_inv db st now rt decoded td user hr
      subst hdec
      refine ⟨user, hu, ?_⟩
      rw [hr] at h
      simp only [] at h
      rcases hwp : AuthService.refreshWritePhase st gen now rt rt.payload user
        with ⟨r0, s0, g0, c0⟩
      rw [hwp] at h
      simp at h
      obtain ⟨h1, h2, h3, h4⟩ := h
      simp [h1, h2, h3, h4]

/-! ### Concrete scenario used by witnesses and defect demonstrations -/

/-- A stored user row with the bcrypt hash of `"secret123"`. -/
def demoUser : User :=
  ⟨"u1", "a@x.com", none, "USER", bcryptHashString "secret123"⟩

def demoDb : Db := [demoUser]

def demoSafe : SafeUser := stripPassword demoUser

/-- Login of the demo user against an empty store, counter 0, time 1000. -/
def demoLogin := AuthService.login demoSafe [] 0 1000

/-- The session store right after the demo login. -/
def demoSt : Store := demoLogin.2.1

/-- The refresh token issued by the demo login (`jti = 0`). -/
def demoRt : SignedToken RefreshClaims := demoLogin.1.2.1

/-- The first refresh of the demo session, at counter 1, time 2000. -/
def demoRefresh := AuthService.refreshToken demoDb demoSt 1 2000 demoRt

/-- The refresh token the demo refresh mints (`jti = 1`). -/
def demoRt2 : SignedToken RefreshClaims :=
  jwtSign ⟨"u1", 1⟩ REFRESH_SECRET 2000 REFRESH_TOKEN_EXPIRY

/-- The body the demo refresh returns. -/
def demoRes : RefreshResult :=
  ⟨jwtSign ⟨"a@x.com", "u1", "USER", 1⟩ JWT_SECRET 2000 ACCESS_TOKEN_EXPIRY,
    demoRt2, demoSafe⟩

/-- A second login of the demo user (counter and store threaded from the
first), giving the user two live sessions. -/
def demoLogin2 :=
  AuthService.login demoSafe demoLogin.2.1 demoLogin.2.2.1 1000

/-- The refresh token issued by the second demo login (`jti = 1`). -/
def demoRtB : SignedToken RefreshClaims := demoLogin2.1.2.1

/-- The store after logging the demo user out of both sessions. -/
def demoAfterLogout : Store := (AuthService.logout demoLogin2.2.1 "u1").1

/-- A token with a bad signature (signed with the wrong secret). -/
def demoBadToken : SignedToken RefreshClaims :=
  ⟨⟨"u1", 0⟩, "wrong-secret", 99999⟩

/-! ### Claim theorems -/

/-- C4: `validateUser` fails closed.  A pair matching a stored user (email
found, bcrypt comparison succeeds) returns that user without the password
field; an unknown email returns `none`; a wrong password returns `none` —
the same observable no-match outcome in both failure cases. -/
theorem validateUser_fails_closed (db : Db) (email pw : String) :
    (∀ u : User, findUserByEmail db email = some u →
        bcryptCompare pw u.password = true →
        AuthService.validateUser db email pw = some (stripPassword u)) ∧
    (findUserByEmail db email = none →
        AuthService.validateUser db email pw = none) ∧
    (∀ u : User, findUserByEmail db email = some u →
        bcryptCompare pw u.password = false →
        AuthService.validateUser db email pw = none) := by
  refine ⟨fun u hu hc => ?_, fun hn => ?_, fun u hu hc => ?_⟩ <;>
    simp [AuthService.validateUser, *]

/-- Witness for C4 at the concrete demo user: correct credentials match,
unknown email and wrong password both give `none`. -/
theorem validateUser_fails_closed_witness :
    AuthService.validateUser demoDb "a@x.com" "secret123"
        = some (stripPassword demoUser) ∧
    AuthService.validateUser demoDb "b@x.com" "secret123" = none ∧
    AuthService.validateUser demoDb "a@x.com" "wrong" = none :=
  ⟨(validateUser_fails_closed demoDb "a@x.com" "secret123").1 demoUser rfl rfl,
    (validateUser_fails_closed demoDb "b@x.com" "secret123").2.1 rfl,
    (validateUser_fails_closed demoDb "a@x.com" "wrong").2.2 demoUser rfl rfl⟩

/-- C6: issue/verify round-trip.  A token pair minted by `generateTokens`
and immediately checked with the corresponding secret decodes to the very
claims embedded at issuance: the id of the user as `sub` and the minted
`tokenId` as `jti`, for both the access and the refresh token. -/
theorem issue_verify_roundtrip (u : SafeUser) (now gen : Nat) :
    AuthService.verifyToken
        (AuthService.generateTokens u now gen).1.accessToken now
      = some ⟨u.email, u.id, u.role,
          (AuthService.generateTokens u now gen).1.tokenId⟩ ∧
    jwtVerify (AuthService.generateTokens u now gen).1.refreshToken
        REFRESH_SECRET now
      = some ⟨u.id, (AuthService.generateTokens u now gen).1.tokenId⟩ := by
  constructor <;>
    simp [AuthService.verifyToken, AuthService.generateTokens, jwtVerify,
      jwtSign, ACCESS_TOKEN_EXPIRY, REFRESH_TOKEN_EXPIRY]

/-- C8: idempotent logout.  With zero session keys for the user, `logout`
deletes nothing — the store is returned unchanged — and still clears the
refresh-token cookie; no error is raised (the function is total). -/
theorem logout_idempotent (st : Store) (userId : UserId)
    (h : sessionKeysOf st userId = []) :
    AuthService.logout st userId = (st, .cleared) := by
  simp [AuthService.logout, h]

/-- Witness for C8: a store holding only a session of another user. -/
theorem logout_idempotent_witness :
    AuthService.logout [(RKey.session "u2" 5, ⟨"u2", 5, 0⟩)] "u1"
      = ([(RKey.session "u2" 5, ⟨"u2", 5, 0⟩)], .cleared) :=
  logout_idempotent [(RKey.session "u2" 5, ⟨"u2", 5, 0⟩)] "u1" rfl

/-- C3: refresh failure atomicity.  Whenever the hardened `refreshToken`
rejects (bad signature or expiry, token value absent from the store,
stored `userId` mismatch, user row missing), it returns an authentication
error and the session store, the id counter and the cookie are all left
untouched. -/
theorem refresh_failure_atomic (db : Db) (st : Store) (gen now : Nat)
    (rt : SignedToken RefreshClaims) (e : AuthErr)
    (h : (AuthService.refreshToken db st gen now rt).1 = .error e) :
    (AuthService.refreshToken db st gen now rt).2.1 = st ∧
    (AuthService.refreshToken db st gen now rt).2.2.1 = gen ∧
    (AuthService.refreshToken db st gen now rt).2.2.2 = .untouched := by
  unfold AuthService.refreshToken at h ⊢
  cases hr : AuthService.refreshReadPhase db st now rt with
  | error e' => simp [hr]
  | ok trip =>
      obtain ⟨d, td, u⟩ := trip
      rw [hr] at h
      simp at h

/-- Witness for C3: a token signed with the wrong secret is rejected and
mutates nothing. -/
theorem refresh_failure_atomic_witness :
    (AuthService.refreshToken demoDb [] 0 0 demoBadToken).2.1 = ([] : Store) ∧
    (AuthService.refreshToken demoDb [] 0 0 demoBadToken).2.2.1 = 0 ∧
    (AuthService.refreshToken demoDb [] 0 0 demoBadToken).2.2.2
      = .untouched :=
  refresh_failure_atomic demoDb [] 0 0 demoBadToken .invalidToken rfl

/-- C2 (defect in the code): `logout` removes only the
`refresh_token:{userId}:*` keys; the `token:{value}` keys — the ones the
refresh path checks — survive.  After two logins and a logout of the demo
user, both originally issued refresh tokens still rotate successfully
instead of failing with an invalid-token error. -/
theorem logout_leaves_sessions_usable :
    (∃ r, (AuthService.refreshToken demoDb demoAfterLogout 2 2000 demoRt).1
        = .ok r) ∧
    (∃ r, (AuthService.refreshToken demoDb demoAfterLogout 2 2000 demoRtB).1
        = .ok r) :=
  ⟨⟨_, rfl⟩, ⟨_, rfl⟩⟩

/-- C9 (defect in the code): the refresh flow uses a separate get followed
by a delete.  Under the interleaving in which two concurrent calls
presenting the same refresh token both complete their read phase before
either deletes, both calls succeed — not at most one. -/
theorem concurrent_refresh_both_succeed :
    (∃ a, (AuthService.refreshTwoInterleaved demoDb demoSt 1 2000 demoRt).1
        = .ok a) ∧
    (∃ b, (AuthService.refreshTwoInterleaved demoDb demoSt 1 2000 demoRt).2.1
        = .ok b) :=
  ⟨⟨_, rfl⟩, ⟨_, rfl⟩⟩

/-- C10 (defect in the code): the OAuth variant of `refreshToken` copies
the user row with `const { ...safeUser } = user`, which keeps the
`password` field, so its successful return value carries the stored
bcrypt password hash out of the auth layer. -/
theorem refreshV3_returns_password_hash :
    (AuthService.refreshTokenV3 demoDb demoSt 1 2000 demoRt).1
      = .ok ⟨jwtSign ⟨"a@x.com", "u1", "USER", 1⟩ JWT_SECRET 2000
              ACCESS_TOKEN_EXPIRY_V3, demoRt2, demoUser⟩ ∧
    demoUser.password = bcryptHashString "secret123" :=
  ⟨rfl, rfl⟩

/-- C5 counterexample: a successful hardened-variant refresh whose
response body (`{access_token, refreshToken, user}`) contains the newly
minted refresh token — the same token the call sets as the cookie — so the
new refresh token is not cookie-only. -/
theorem refresh_body_contains_new_refresh_token :
    demoRefresh.1 = .ok demoRes ∧
    demoRes.refreshToken = demoRt2 ∧
    demoRefresh.2.2.2 = .set demoRt2 :=
  ⟨rfl, rfl, rfl⟩

/-- C5 amended: every successful hardened-variant refresh returns the new
refresh token in the readable response body — the `refreshToken` field of the body
field equals the token set in the HTTP-only cookie — in addition to the
new access token and user; the cookie-only behavior the claim describes is
the hardening target of the spec, not the source behavior. -/
theorem refresh_body_echoes_cookie (db : Db) (st : Store) (gen now : Nat)
    (rt : SignedToken RefreshClaims) (res : RefreshResult) (st' : Store)
    (gen' : Nat) (ck : CookieEffect)
    (h : AuthService.refreshToken db st gen now rt
      = (.ok res, st', gen', ck)) :
    ck = .set res.refreshToken := by
  obtain ⟨u, -, hwp⟩ := refreshToken_ok_shape db st gen now rt res st' gen' ck h
  simp only [AuthService.refreshWritePhase] at hwp
  simp [Prod.ext_iff] at hwp
  obtain ⟨h1, -, -, h4⟩ := hwp
  subst h1
  subst h4
  rfl

/-- Witness for the amended C5 at the demo refresh. -/
theorem refresh_body_echoes_cookie_witness :
    demoRefresh.2.2.2 = .set demoRes.refreshToken :=
  refresh_body_echoes_cookie demoDb demoSt 1 2000 demoRt demoRes
    demoRefresh.2.1 demoRefresh.2.2.1 demoRefresh.2.2.2 rfl

/-- C7: a successful refresh rotates the session identifier itself.
Under the freshness of the id generator (the decoded `jti` differs from
the counter value the call mints, mirroring `crypto.randomUUID()`), the
new refresh token carries a different `jti`, both old entries — the
`token:{value}` key and the `refresh_token:{userId}:{tokenId}` key — are
gone from the resulting store, both new entries are present, and the
cookie is rewritten to the new refresh token. -/
theorem rotation_rotates_session_id (db : Db) (st : Store) (gen now : Nat)
    (rt : SignedToken RefreshClaims) (res : RefreshResult) (st' : Store)
    (gen' : Nat) (ck : CookieEffect)
    (h : AuthService.refreshToken db st gen now rt
      = (.ok res, st', gen', ck))
    (hfresh : rt.payload.jti ≠ gen) :
    res.refreshToken.payload.jti ≠ rt.payload.jti ∧
    redisGet st' (.tokenVal rt) = none ∧
    redisGet st' (.session rt.payload.sub rt.payload.jti) = none ∧
    redisGet st' (.session rt.payload.sub gen)
      = some ⟨rt.payload.sub, gen, now⟩ ∧
    redisGet st' (.tokenVal res.refreshToken)
      = some ⟨rt.payload.sub, gen, now⟩ ∧
    ck = .set res.refreshToken := by
  obtain ⟨u, hu, hwp⟩ := refreshToken_ok_shape db st gen now rt res st' gen' ck h
  simp only [AuthService.refreshWritePhase, AuthService.generateTokens,
    AuthService.storeRefreshToken, jwtSign] at hwp
  simp [Prod.ext_iff] at hwp
  obtain ⟨h1, h2, h3, h4⟩ := hwp
  subst h1
  subst h2
  subst h3
  subst h4
  have hne1 : (RKey.tokenVal rt)
      ≠ RKey.tokenVal ⟨⟨(stripPassword u).id, gen⟩, REFRESH_SECRET,
          now + REFRESH_TOKEN_EXPIRY⟩ := by
    intro hcon
    apply hfresh
    have hrt : rt = ⟨⟨(stripPassword u).id, gen⟩, REFRESH_SECRET,
        now + REFRESH_TOKEN_EXPIRY⟩ := RKey.tokenVal.inj hcon
    rw [hrt]
  refine ⟨Ne.symm hfresh, ?_, ?_, ?_, ?_, rfl⟩
  · rw [redisGet_redisSet_ne _ _ _ _ hne1,
      redisGet_redisSet_ne _ _ _ _ (by simp),
      redisGet_redisDel_ne _ _ _ (by simp)]
    exact redisGet_redisDel_self _ _
  · rw [redisGet_redisSet_ne _ _ _ _ (by simp),
      redisGet_redisSet_ne _ _ _ _ (by simpa using hfresh)]
    exact redisGet_redisDel_self _ _
  · rw [redisGet_redisSet_ne _ _ _ _ (by simp)]
    exact redisGet_redisSet_self _ _ _
  · exact redisGet_redisSet_self _ _ _

/-- Witness for C7 at the demo refresh: the old `jti` is 0, the fresh
counter value is 1. -/
theorem rotation_rotates_session_id_witness :
    demoRes.refreshToken.payload.jti ≠ demoRt.payload.jti ∧
    redisGet demoRefresh.2.1 (.tokenVal demoRt) = none ∧
    redisGet demoRefresh.2.1
      (.session demoRt.payload.sub demoRt.payload.jti) = none ∧
    redisGet demoRefresh.2.1 (.session demoRt.payload.sub 1)
      = some ⟨demoRt.payload.sub, 1, 2000⟩ ∧
    redisGet demoRefresh.2.1 (.tokenVal demoRes.refreshToken)
      = some ⟨demoRt.payload.sub, 1, 2000⟩ ∧
    demoRefresh.2.2.2 = .set demoRes.refreshToken :=
  rotation_rotates_session_id demoDb demoSt 1 2000 demoRt demoRes
    demoRefresh.2.1 demoRefresh.2.2.1 demoRefresh.2.2.2 rfl (by decide)

/-- C1: rotation exactly-once.  Starting from any store, log the user in
(issuing a fresh refresh token and threading the id counter).  If the user
row is still present and the first refresh happens before the token
expiry, that first refresh succeeds with a new token pair; presenting the
same original refresh token a second time — at any later instant — fails
with the invalid-token error, because the `token:{value}` record was
deleted by the first successful use. -/
theorem rotation_exactly_once (db : Db) (st0 : Store) (su : SafeUser)
    (w : User) (g now now₁ now₂ : Nat)
    (hw : findUserById db su.id = some w)
    (h₁ : now₁ < now + REFRESH_TOKEN_EXPIRY) :
    (∃ res, (AuthService.refreshToken db (AuthService.login su st0 g now).2.1
        (AuthService.login su st0 g now).2.2.1 now₁
        (AuthService.login su st0 g now).1.2.1).1 = .ok res) ∧
    (AuthService.refreshToken db
        (AuthService.refreshToken db (AuthService.login su st0 g now).2.1
          (AuthService.login su st0 g now).2.2.1 now₁
          (AuthService.login su st0 g now).1.2.1).2.1
        (AuthService.refreshToken db (AuthService.login su st0 g now).2.1
          (AuthService.login su st0 g now).2.2.1 now₁
          (AuthService.login su st0 g now).1.2.1).2.2.1
        now₂
        (AuthService.login su st0 g now).1.2.1).1
      = .error .invalidToken := by
  have hlog1 : (AuthService.login su st0 g now).2.1
      = AuthService.storeRefreshToken st0 su.id
          (jwtSign ⟨su.id, g⟩ REFRESH_SECRET now REFRESH_TOKEN_EXPIRY)
          g now := rfl
  have hlog2 : (AuthService.login su st0 g now).2.2.1 = g + 1 := rfl
  have hlog3 : (AuthService.login su st0 g now).1.2.1
      = jwtSign ⟨su.id, g⟩ REFRESH_SECRET now REFRESH_TOKEN_EXPIRY := rfl
  rw [hlog1, hlog2, hlog3]
  have hread : AuthService.refreshReadPhase db
      (AuthService.storeRefreshToken st0 su.id
        (jwtSign ⟨su.id, g⟩ REFRESH_SECRET now REFRESH_TOKEN_EXPIRY) g now)
      now₁ (jwtSign ⟨su.id, g⟩ REFRESH_SECRET now REFRESH_TOKEN_EXPIRY)
      = .ok (⟨su.id, g⟩, ⟨su.id, g, now⟩, w) := by
    have hv : jwtVerify
        (jwtSign (α := RefreshClaims) ⟨su.id, g⟩ REFRESH_SECRET now
          REFRESH_TOKEN_EXPIRY)
        REFRESH_SECRET now₁ = some ⟨su.id, g⟩ := by
      simp [jwtSign, jwtVerify, h₁]
    have hg : redisGet
        (AuthService.storeRefreshToken st0 su.id
          (jwtSign ⟨su.id, g⟩ REFRESH_SECRET now REFRESH_TOKEN_EXPIRY) g now)
        (.tokenVal (jwtSign ⟨su.id, g⟩ REFRESH_SECRET now
          REFRESH_TOKEN_EXPIRY))
        = some ⟨su.id, g, now⟩ :=
      redisGet_redisSet_self _ _ _
    unfold AuthService.refreshReadPhase
    simp [hv, hg, hw]
  have hfirst : AuthService.refreshToken db
      (AuthService.storeRefreshToken st0 su.id
        (jwtSign ⟨su.id, g⟩ REFRESH_SECRET now REFRESH_TOKEN_EXPIRY) g now)
      (g + 1) now₁
      (jwtSign ⟨su.id, g⟩ REFRESH_SECRET now REFRESH_TOKEN_EXPIRY)
      = (.ok ⟨jwtSign ⟨w.email, w.id, w.role, g + 1⟩ JWT_SECRET now₁
              ACCESS_TOKEN_EXPIRY,
            jwtSign ⟨w.id, g + 1⟩ REFRESH_SECRET now₁ REFRESH_TOKEN_EXPIRY,
            stripPassword w⟩,
          AuthService.storeRefreshToken
            (redisDel
              (redisDel
                (AuthService.storeRefreshToken st0 su.id
                  (jwtSign ⟨su.id, g⟩ REFRESH_SECRET now
                    REFRESH_TOKEN_EXPIRY) g now)
                (.tokenVal (jwtSign ⟨su.id, g⟩ REFRESH_SECRET now
                  REFRESH_TOKEN_EXPIRY)))
              (.session su.id g))
            su.id
            (jwtSign ⟨w.id, g + 1⟩ REFRESH_SECRET now₁ REFRESH_TOKEN_EXPIRY)
            (g + 1) now₁,
          g + 2,
          .set (jwtSign ⟨w.id, g + 1⟩ REFRESH_SECRET now₁
            REFRESH_TOKEN_EXPIRY)) := by
    unfold AuthService.refreshToken
    rw [hread]
    rfl
  rw [hfirst]
  have hne1 : (RKey.tokenVal
      (jwtSign ⟨su.id, g⟩ REFRESH_SECRET now REFRESH_TOKEN_EXPIRY))
      ≠ RKey.tokenVal
          (jwtSign ⟨w.id, g + 1⟩ REFRESH_SECRET now₁
            REFRESH_TOKEN_EXPIRY) := by
    intro hcon
    have hjti := congrArg
      (fun k => match k with
        | RKey.tokenVal t => t.payload.jti
        | RKey.session _ t => t) hcon
    simp [jwtSign] at hjti
  have hget2 : redisGet
      (AuthService.storeRefreshToken
        (redisDel
          (redisDel
            (AuthService.storeRefreshToken st0 su.id
              (jwtSign ⟨su.id, g⟩ REFRESH_SECRET now
                REFRESH_TOKEN_EXPIRY) g now)
            (.tokenVal (jwtSign ⟨su.id, g⟩ REFRESH_SECRET now
              REFRESH_TOKEN_EXPIRY)))
          (.session su.id g))
        su.id
        (jwtSign ⟨w.id, g + 1⟩ REFRESH_SECRET now₁ REFRESH_TOKEN_EXPIRY)
        (g + 1) now₁)
      (.tokenVal (jwtSign ⟨su.id, g⟩ REFRESH_SECRET now
        REFRESH_TOKEN_EXPIRY)) = none := by
    unfold AuthService.storeRefreshToken
    rw [redisGet_redisSet_ne _ _ _ _ hne1,
      redisGet_redisSet_ne _ _ _ _ (by simp),
      redisGet_redisDel_ne _ _ _ (by simp)]
    exact redisGet_redisDel_self _ _
  exact ⟨⟨_, rfl⟩, refreshToken_invalid_of_get_none db _ _ now₂ _ hget2⟩

/-- Witness for C1 at the demo data: login at counter 0, first refresh at
counter 1 succeeds, replay of the original token fails. -/
theorem rotation_exactly_once_witness :
    (∃ res, (AuthService.refreshToken demoDb
        (AuthService.login demoSafe [] 0 1000).2.1
        (AuthService.login demoSafe [] 0 1000).2.2.1 2000
        (AuthService.login demoSafe [] 0 1000).1.2.1).1 = .ok res) ∧
    (AuthService.refreshToken demoDb
        (AuthService.refreshToken demoDb
          (AuthService.login demoSafe [] 0 1000).2.1
          (AuthService.login demoSafe [] 0 1000).2.2.1 2000
          (AuthService.login demoSafe [] 0 1000).1.2.1).2.1
        (AuthService.refreshToken demoDb
          (AuthService.login demoSafe [] 0 1000).2.1
          (AuthService.login demoSafe [] 0 1000).2.2.1 2000
          (AuthService.login demoSafe [] 0 1000).1.2.1).2.2.1
        3000
        (AuthService.login demoSafe [] 0 1000).1.2.1).1
      = .error .invalidToken :=
  rotation_exactly_once demoDb [] demoSafe demoUser 0 1000 2000 3000 rfl
    (by decide)

end BoilerplateAuth
